import Mathlib

/-!
# Verification of the PyInstaller runtime hook (`runtime_hook.py`)

Shallow embedding of `src/Scripts/browser-use-sidecar/runtime_hook.py`.

The script mutates three pieces of process-global state at bootstrap:
* `urllib.request.getproxies` is replaced by `lambda: {}`;
* eight proxy environment variables are popped from `os.environ`;
* when running frozen with a PyInstaller extraction root (`sys._MEIPASS`),
  `importlib.resources.files` is wrapped by `patched_files`.

We model the process state explicitly (environment as a partial map from
names to values, the two patchable functions as fields), the filesystem as
a predicate `String → Bool` telling which paths exist, and a resolver as a
function from the filesystem and a package argument to `Except` (Python
exceptions become the `error` branch).
-/

namespace RuntimeHook

/-- The argument passed to `importlib.resources.files`: either a dotted
package name (a Python `str`) or any non-string object (e.g. a module),
abstracted by an identifier. Mirrors the `isinstance(package, str)` split
in `patched_files`. -/
inductive Package where
  | str (s : String)
  | nonStr (id : Nat)
deriving DecidableEq

/-- A result of resource resolution: either a concrete filesystem path
(what the patched branches return, `Path(meipass) / package_path`), or an
abstract traversable object produced by the original resolver. -/
inductive Resolved where
  | path (p : String)
  | traversable (id : Nat)
deriving DecidableEq

/-- A resource resolver: given the current filesystem (which paths exist)
and a package argument, either return a result or raise (an exception,
abstracted by a `Nat` code). -/
def Resolver : Type := (String → Bool) → Package → Except Nat Resolved

/-- Bundler-supplied interpreter flags: `getattr(sys, 'frozen', False)`
and `getattr(sys, '_MEIPASS', None)`. `none` models the attribute being
absent; `some ""` is present but falsy. -/
structure SysState where
  frozen : Bool
  meipass : Option String
deriving DecidableEq

/-- The process-global state the hook mutates: the environment
(`os.environ`, a partial map), the installed proxy-discovery function
(`urllib.request.getproxies`, modelled as a function of the environment so
that "ignores everything" is expressible), and the installed resource
resolver (`importlib.resources.files`). -/
structure ProcState where
  env : String → Option String
  getproxies : (String → Option String) → List (String × String)
  filesFn : Resolver

/-- The eight proxy variable names cleared by the hook, in source order. -/
def proxyVars : List String :=
  ["ALL_PROXY", "all_proxy", "HTTP_PROXY", "http_proxy",
   "HTTPS_PROXY", "https_proxy", "SOCKS_PROXY", "socks_proxy"]

/-- Embeds `os.environ.pop(var, None)`: remove one key, absence is not an error. -/
def envPop (env : String → Option String) (v : String) : String → Option String :=
  fun k => if k = v then none else env k

/-- The `for var in [...]: os.environ.pop(var, None)` loop. -/
def clearProxyVars (env : String → Option String) : String → Option String :=
  proxyVars.foldl envPop env

/-- Embeds `package.replace('.', '/')`: the pattern and replacement are single
characters, so Python's `str.replace` is the character-wise map sending
`.` to `/`. (`String.replace` itself does not reduce in the kernel, so we
use the equivalent map on the character list.) -/
def dotToSlash (s : String) : String :=
  String.mk (s.data.map fun c => if c = '.' then '/' else c)

/-- Embeds `Path(meipass) / package.replace('.', '/')`: the candidate extraction
path for a dotted package name. -/
def pyiPath (meipass s : String) : String :=
  meipass ++ "/" ++ dotToSlash s

/-- The wrapper installed over `importlib.resources.files`:

* for a string package whose extraction path exists, return that path;
* otherwise call the saved original; if it raises and the package is a
  string, return the (unchecked) extraction path; for a non-string
  package the exception is re-raised. -/
def patched_files (meipass : String) (original : Resolver) : Resolver :=
  fun existsFn package =>
    match package with
    | .str s =>
      let pyinstaller_path := pyiPath meipass s
      if existsFn pyinstaller_path then
        .ok (.path pyinstaller_path)
      else
        match original existsFn package with
        | .ok r => .ok r
        | .error _ => .ok (.path pyinstaller_path)
    | .nonStr _ => original existsFn package

/-- Embeds the `if not meipass` test: the extraction root is unavailable when the
attribute is missing or its value is falsy (the empty string). -/
def meipassUnset : Option String → Bool
  | none => true
  | some s => s.isEmpty

/-- Embeds `_fix_importlib_resources()`: no-op unless `sys.frozen` is truthy and
`sys._MEIPASS` is set and non-falsy; otherwise installs `patched_files`
wrapping the currently installed resolver. -/
def fixImportlibResources (sys : SysState) (st : ProcState) : ProcState :=
  if sys.frozen = false then st
  else
    match sys.meipass with
    | none => st
    | some m =>
      if m.isEmpty then st
      else { st with filesFn := patched_files m st.filesFn }

/-- The module body of `runtime_hook.py`, in source order: replace
`getproxies` with `lambda: {}`, pop the proxy variables, then run
`_fix_importlib_resources()`. -/
def runPatcher (sys : SysState) (st : ProcState) : ProcState :=
  let st1 : ProcState := { st with getproxies := fun _ => [] }
  let st2 : ProcState := { st1 with env := clearProxyVars st1.env }
  fixImportlibResources sys st2

/-- A resolver with explicit access to the mutable process state: it may
read and write the state, returning the possibly-updated state alongside
its outcome. Used to express frame (non-mutation) properties. -/
def StResolver : Type :=
  ProcState → (String → Bool) → Package → Except Nat Resolved × ProcState

/-- The wrapper `patched_files` re-expressed with explicit state passing: the wrapper
body itself performs no state mutation, so the only state change a call
can make is whatever the original resolver's own call makes. -/
def patched_files_st (meipass : String) (original : StResolver) : StResolver :=
  fun st existsFn package =>
    match package with
    | .str s =>
      let pyinstaller_path := pyiPath meipass s
      if existsFn pyinstaller_path then
        (.ok (.path pyinstaller_path), st)
      else
        match original st existsFn package with
        | (.ok r, st') => (.ok r, st')
        | (.error _, st') => (.ok (.path pyinstaller_path), st')
    | .nonStr _ => original st existsFn package

end RuntimeHook

namespace RuntimeHook

/-! ## Helper lemmas -/

theorem fixImportlib_env (sys : SysState) (st : ProcState) :
    (fixImportlibResources sys st).env = st.env := by
  unfold fixImportlibResources
  split
  · rfl
  · cases h : sys.meipass with
    | none => rfl
    | some m => simp only []; split <;> rfl

theorem fixImportlib_getproxies (sys : SysState) (st : ProcState) :
    (fixImportlibResources sys st).getproxies = st.getproxies := by
  unfold fixImportlibResources
  split
  · rfl
  · cases h : sys.meipass with
    | none => rfl
    | some m => simp only []; split <;> rfl

theorem clearProxyVars_apply (e : String → Option String) (k : String) :
    clearProxyVars e k = if k ∈ proxyVars then none else e k := by
  simp only [clearProxyVars, proxyVars, List.foldl, envPop, List.mem_cons,
    List.not_mem_nil, or_false]
  split_ifs <;> simp_all

theorem runPatcher_env (sys : SysState) (st : ProcState) :
    (runPatcher sys st).env = clearProxyVars st.env := by
  unfold runPatcher
  rw [fixImportlib_env]

theorem runPatcher_getproxies (sys : SysState) (st : ProcState) :
    (runPatcher sys st).getproxies = fun _ => [] := by
  unfold runPatcher
  rw [fixImportlib_getproxies]

theorem runPatcher_filesFn_frozen (m : String) (hm : m.isEmpty = false)
    (st : ProcState) :
    (runPatcher ⟨true, some m⟩ st).filesFn = patched_files m st.filesFn := by
  unfold runPatcher fixImportlibResources
  simp [hm]

end RuntimeHook

namespace RuntimeHook

/-! ## More helper lemmas -/

theorem ProcState.eq_of_fields (a b : ProcState)
    (h1 : a.env = b.env) (h2 : a.getproxies = b.getproxies)
    (h3 : a.filesFn = b.filesFn) : a = b := by
  cases a; cases b; cases h1; cases h2; cases h3; rfl

theorem patched_files_str (m : String) (f : Resolver) (ex : String → Bool)
    (s : String) :
    patched_files m f ex (.str s)
      = if ex (pyiPath m s) then .ok (.path (pyiPath m s))
        else match f ex (.str s) with
          | .ok r => .ok r
          | .error _ => .ok (.path (pyiPath m s)) := rfl

theorem runPatcher_filesFn (sys : SysState) (st : ProcState) :
    (runPatcher sys st).filesFn
      = if sys.frozen = false then st.filesFn
        else match sys.meipass with
          | none => st.filesFn
          | some m =>
            if m.isEmpty then st.filesFn else patched_files m st.filesFn := by
  unfold runPatcher fixImportlibResources
  by_cases hf : sys.frozen = false
  · simp [hf]
  · simp only [hf, if_false]
    cases sys.meipass with
    | none => rfl
    | some m => by_cases hm : m.isEmpty <;> simp [hm]

theorem clearProxyVars_idem (e : String → Option String) :
    clearProxyVars (clearProxyVars e) = clearProxyVars e := by
  funext k
  rw [clearProxyVars_apply, clearProxyVars_apply]
  by_cases hk : k ∈ proxyVars <;> simp [hk]

theorem patched_files_idem (m : String) (f : Resolver) :
    patched_files m (patched_files m f) = patched_files m f := by
  funext ex pkg
  cases pkg with
  | str s =>
    rw [patched_files_str, patched_files_str]
    by_cases hex : ex (pyiPath m s) = true
    · simp [hex]
    · simp only [hex, if_false]
      cases f ex (.str s) <;> simp
  | nonStr i => rfl

end RuntimeHook

namespace RuntimeHook

/-! ## Concrete fixtures used by witnesses -/

/-- A sample environment: one proxy variable set, one unrelated variable. -/
def envW : String → Option String := fun k =>
  if k = "HTTP_PROXY" then some "http://proxy.example:3128"
  else if k = "PATH" then some "/usr/bin" else none

/-- An original resolver that always raises. -/
def origErrW : Resolver := fun _ _ => .error 7

/-- An original resolver that always succeeds with an abstract result. -/
def origOkW : Resolver := fun _ _ => .ok (.traversable 3)

/-- A proxy-discovery function that actually reads the environment. -/
def gpW : (String → Option String) → List (String × String) := fun e =>
  match e "HTTP_PROXY" with
  | some v => [("http", v)]
  | none => []

/-- Process state whose installed resolver always raises. -/
def stW : ProcState := ⟨envW, gpW, origErrW⟩

/-- Process state whose installed resolver always succeeds. -/
def stOkW : ProcState := ⟨envW, gpW, origOkW⟩

/-- A filesystem on which no path exists. -/
def exNoneW : String → Bool := fun _ => false

/-- A filesystem on which exactly the extraction path of package
name `a.b` under root `/m` exists. -/
def exHitW : String → Bool := fun p => p = "/m/a/b"

/-- A stateful original resolver that raises and never mutates state. -/
def origPureW : StResolver := fun st _ _ => (.error 7, st)

/-! ## Claim theorems -/

/-- C1: for every string package name, if bundled mode is on, the
extraction root `m` is set (truthy), the extraction path does not exist,
and the installed original resolver raises on the name, then after the
patcher runs resolving returns the unchecked path `m/a/b` — the
exception is not propagated to the caller. -/
theorem C1_fallback_on_raise (m s : String) (hm : m.isEmpty = false)
    (st : ProcState) (existsFn : String → Bool)
    (hne : existsFn (pyiPath m s) = false) (e : Nat)
    (hraise : st.filesFn existsFn (.str s) = .error e) :
    (runPatcher ⟨true, some m⟩ st).filesFn existsFn (.str s)
      = .ok (.path (pyiPath m s)) := by
  rw [runPatcher_filesFn]
  simp [hm, patched_files_str, hne, hraise]

/-- Witness for C1 at root `/m`, package `a.b`, an empty filesystem and a
raising original. -/
theorem C1_fallback_on_raise_witness :
    (runPatcher ⟨true, some "/m"⟩ stW).filesFn exNoneW (.str "a.b")
      = .ok (.path "/m/a/b") := by
  have h := C1_fallback_on_raise "/m" "a.b" (by decide) stW exNoneW
    (by decide) 7 rfl
  have hp : pyiPath "/m" "a.b" = "/m/a/b" := by decide
  rw [hp] at h
  exact h

/-- C2: for every string package name `a.b`, if bundled mode is on, the
extraction root is set, and the path `extraction_root/a/b` exists, the
patched resolver returns exactly that path; moreover (stateful form) the
result and the final state are independent of the original resolver, so
the original is never invoked on that call. -/
theorem C2_extraction_hit (m s : String) (hm : m.isEmpty = false)
    (st : ProcState) (existsFn : String → Bool)
    (hex : existsFn (pyiPath m s) = true) :
    (runPatcher ⟨true, some m⟩ st).filesFn existsFn (.str s)
      = .ok (.path (pyiPath m s))
    ∧ ∀ (orig : StResolver) (st' : ProcState),
        patched_files_st m orig st' existsFn (.str s)
          = (.ok (.path (pyiPath m s)), st') := by
  constructor
  · rw [runPatcher_filesFn]
    simp [hm, patched_files_str, hex]
  · intro orig st'
    simp [patched_files_st, hex]

/-- Witness for C2 at root `/m`, package `a.b`, a filesystem containing
exactly `/m/a/b`. -/
theorem C2_extraction_hit_witness :
    (runPatcher ⟨true, some "/m"⟩ stOkW).filesFn exHitW (.str "a.b")
      = .ok (.path "/m/a/b")
    ∧ patched_files_st "/m" origPureW stW exHitW (.str "a.b")
      = (.ok (.path "/m/a/b"), stW) := by
  have h := C2_extraction_hit "/m" "a.b" (by decide) stOkW exHitW (by decide)
  have hp : pyiPath "/m" "a.b" = "/m/a/b" := by decide
  rw [hp] at h
  exact ⟨h.1, h.2 origPureW stW⟩

/-- C3: after the patcher runs, proxy discovery returns the empty mapping
on every environment, whatever the prior process state and flags were. -/
theorem C3_getproxies_empty (sys : SysState) (st : ProcState)
    (e : String → Option String) :
    (runPatcher sys st).getproxies e = [] := by
  rw [runPatcher_getproxies]

/-- C4: after the patcher runs, each of the eight proxy variables is
absent from the environment, and every variable not in the list keeps
its prior value. -/
theorem C4_proxy_env_cleared (sys : SysState) (st : ProcState) :
    (∀ v ∈ proxyVars, (runPatcher sys st).env v = none)
    ∧ ∀ k, k ∉ proxyVars → (runPatcher sys st).env k = st.env k := by
  constructor
  · intro v hv
    rw [runPatcher_env, clearProxyVars_apply]
    simp [hv]
  · intro k hk
    rw [runPatcher_env, clearProxyVars_apply]
    simp [hk]

/-- Witness for C4: `HTTP_PROXY` is cleared and `PATH` is preserved on the
sample environment. -/
theorem C4_proxy_env_cleared_witness :
    (runPatcher ⟨true, some "/m"⟩ stW).env "HTTP_PROXY" = none
    ∧ (runPatcher ⟨true, some "/m"⟩ stW).env "PATH" = some "/usr/bin" := by
  have h := C4_proxy_env_cleared ⟨true, some "/m"⟩ stW
  refine ⟨h.1 "HTTP_PROXY" (by decide), ?_⟩
  rw [h.2 "PATH" (by decide)]
  decide

/-- C5: if the frozen flag is false, or the extraction root is missing or
falsy, the patcher leaves the resource resolver unmodified (and, being a
total function, raises no error itself). -/
theorem C5_unfrozen_noop (sys : SysState) (st : ProcState)
    (h : sys.frozen = false ∨ meipassUnset sys.meipass = true) :
    (runPatcher sys st).filesFn = st.filesFn := by
  rw [runPatcher_filesFn]
  by_cases hf : sys.frozen = false
  · simp [hf]
  · simp only [hf, if_false]
    rcases h with h | h
    · exact absurd h hf
    · cases hm : sys.meipass with
      | none => rfl
      | some m =>
        rw [hm] at h
        simp only [meipassUnset] at h
        simp [h]

/-- Witness for C5 with the frozen flag off. -/
theorem C5_unfrozen_noop_witness :
    (runPatcher ⟨false, some "/m"⟩ stW).filesFn = stW.filesFn :=
  C5_unfrozen_noop ⟨false, some "/m"⟩ stW (Or.inl rfl)

/-- C6: for every string package name, if bundled mode is on, the
extraction root is set, the extraction path does not exist, and the
installed original resolver succeeds, the patched resolver returns
exactly the original resolver's result. -/
theorem C6_fallthrough_success (m s : String) (hm : m.isEmpty = false)
    (st : ProcState) (existsFn : String → Bool)
    (hne : existsFn (pyiPath m s) = false) (r : Resolved)
    (hok : st.filesFn existsFn (.str s) = .ok r) :
    (runPatcher ⟨true, some m⟩ st).filesFn existsFn (.str s) = .ok r := by
  rw [runPatcher_filesFn]
  simp [hm, patched_files_str, hne, hok]

/-- Witness for C6 with a succeeding original on an empty filesystem. -/
theorem C6_fallthrough_success_witness :
    (runPatcher ⟨true, some "/m"⟩ stOkW).filesFn exNoneW (.str "a.b")
      = .ok (.traversable 3) :=
  C6_fallthrough_success "/m" "a.b" (by decide) stOkW exNoneW (by decide)
    (.traversable 3) rfl

/-- C7: running the whole patch twice yields exactly the same process
state as running it once, for every flag configuration and prior state. -/
theorem C7_idempotent (sys : SysState) (st : ProcState) :
    runPatcher sys (runPatcher sys st) = runPatcher sys st := by
  apply ProcState.eq_of_fields
  · rw [runPatcher_env, runPatcher_env, clearProxyVars_idem]
  · rw [runPatcher_getproxies, runPatcher_getproxies]
  · rw [runPatcher_filesFn, runPatcher_filesFn]
    by_cases hf : sys.frozen = false
    · simp [hf]
    · simp only [hf, if_false]
      cases sys.meipass with
      | none => rfl
      | some m =>
        by_cases hm : m.isEmpty
        · simp [hm]
        · simp [hm, patched_files_idem]

/-- C8: a non-string package argument bypasses the extraction-root check:
the patched resolver (in both the pure and the stateful embedding) agrees
exactly with the original on it, so a raised exception propagates. -/
theorem C8_nonstring_delegates (m : String) (orig : Resolver)
    (ex : String → Bool) (i : Nat) (origSt : StResolver) (st : ProcState) :
    patched_files m orig ex (.nonStr i) = orig ex (.nonStr i)
    ∧ patched_files_st m origSt st ex (.nonStr i) = origSt st ex (.nonStr i) :=
  ⟨rfl, rfl⟩

/-- C9: the proxy effects (stubbed discovery, cleared variables) happen on
every run of the patcher, regardless of the flags; only the resolver patch
is gated, and with the frozen flag off the resolver is untouched. -/
theorem C9_proxy_unconditional (sys : SysState) (st : ProcState) :
    (runPatcher sys st).getproxies = (fun _ => [])
    ∧ (runPatcher sys st).env = clearProxyVars st.env
    ∧ (sys.frozen = false → (runPatcher sys st).filesFn = st.filesFn) := by
  refine ⟨runPatcher_getproxies sys st, runPatcher_env sys st, fun hf => ?_⟩
  rw [runPatcher_filesFn]
  simp [hf]

/-- Witness for C9 with the frozen flag off. -/
theorem C9_proxy_unconditional_witness :
    (runPatcher ⟨false, some "/m"⟩ stW).getproxies = (fun _ => [])
    ∧ (runPatcher ⟨false, some "/m"⟩ stW).env = clearProxyVars stW.env
    ∧ (runPatcher ⟨false, some "/m"⟩ stW).filesFn = stW.filesFn := by
  have h := C9_proxy_unconditional ⟨false, some "/m"⟩ stW
  exact ⟨h.1, h.2.1, h.2.2 rfl⟩

/-- C10: a call to the patched resolver performs no state mutation of its
own: whenever the original resolver preserves the process state, so does
the wrapped resolver, on every package argument, filesystem and branch
(extraction hit, original success, original failure with fallback). -/
theorem C10_no_state_mutation (m : String) (orig : StResolver)
    (hpres : ∀ st ex pkg, (orig st ex pkg).2 = st)
    (st : ProcState) (ex : String → Bool) (pkg : Package) :
    (patched_files_st m orig st ex pkg).2 = st := by
  cases pkg with
  | str s =>
    simp only [patched_files_st]
    by_cases hex : ex (pyiPath m s) = true
    · simp [hex]
    · simp only [hex, if_false]
      have h := hpres st ex (.str s)
      rcases hr : orig st ex (.str s) with ⟨res, st'⟩
      rw [hr] at h
      cases res <;> simpa using h
  | nonStr i => exact hpres st ex _

/-- Witness for C10 with a state-preserving raising original. -/
theorem C10_no_state_mutation_witness :
    (patched_files_st "/m" origPureW stW exNoneW (.str "a.b")).2 = stW :=
  C10_no_state_mutation "/m" origPureW (fun _ _ _ => rfl) stW exNoneW
    (.str "a.b")

end RuntimeHook
